import Mathlib

/-!
Verification of the retention / erasure engine of the Interview-AI-Assistant
backend (backend/app/services/privacy_service.py, security_service.py,
vector_service.py, api/v1/endpoints/users.py, schemas/user.py,
models/user.py), as a shallow embedding in Lean 4.

Modelling conventions:
* The relational store (SQLAlchemy over the models in models/user.py) is a
  `Store`: one list per table, rows as structures carrying exactly the
  columns the modelled operations read or write.  Row-insertion defaults
  (`server_default`, `onupdate`) belong to row creation, which none of the
  modelled operations perform.
* Timestamps are integers counting hours (the code computes cutoffs with
  `timedelta(hours=...)`, so hours is the natural unit); `utcnow()` becomes
  an explicit `now : Int` argument.
* `select(...).where(p)` becomes `List.filter`; `delete(...).where(p)` with
  its `rowcount` becomes `List.countP p` for the count and
  `List.filter (not of p)` for the surviving rows;
  `scalar_one_or_none` becomes `List.find?`.
* A Python function that returns `{"error": ...}` instead of raising is
  modelled with `Option`/`Except`: `none`/`Except.error` is the error
  dictionary, `some`/`Except.ok` the success dictionary.
* The Qdrant gateway call `VectorService.delete_user_data` wraps its client
  call in try/except and returns a `bool` (True on success, False when the
  client raised); it is modelled as an oracle argument `vectorOk : Bool`,
  the value that call returns.
-/

/-- Row of the `users` table (models/user.py, class `User`): exactly the
columns read or written by the privacy, sweep and account operations. -/
structure UserRow where
  id : Nat
  email : String
  authProvider : String
  createdAt : Int
  isActive : Bool
  isVerified : Bool
  autoDeleteEnabled : Bool
  retentionHours : Int
  preferredLlmModel : String
  overlayPosition : String
deriving Repr, DecidableEq

/-- Row of the `resumes` table (models/user.py, class `Resume`): the columns
the export reads plus the ownership key used by the deletes. -/
structure ResumeRow where
  id : Nat
  user_id : Nat
  filename : String
  fileSize : Nat
  mimeType : String
  uploadedAt : Int
  skills : Option String
  experienceYears : Option Int
  educationLevel : Option String
  currentRole : Option String
  isActive : Bool
deriving Repr, DecidableEq

/-- Row of the `sessions` table (models/user.py, class `Session`). -/
structure SessionRow where
  id : Nat
  user_id : Nat
  platform : Option String
  sessionType : String
  startedAt : Int
  endedAt : Option Int
  durationMinutes : Option Int
  retentionPolicy : String
  privacyMode : Bool
  isActive : Bool
deriving Repr, DecidableEq

/-- Row of the `transcript_segments` table (class `TranscriptSegment`). -/
structure SegmentRow where
  id : Nat
  session_id : Nat
  startMs : Nat
  endMs : Nat
  text : String
  speaker : Option String
  confidence : Option Int
  isFinal : Bool
  createdAt : Int
deriving Repr, DecidableEq

/-- Row of the `suggestions` table (class `Suggestion`). -/
structure SuggestionRow where
  id : Nat
  session_id : Nat
  segment_id : Option Nat
  content : String
  suggestionType : String
  llmModel : Option String
  accepted : Bool
  dismissed : Bool
  feedbackRating : Option Int
  createdAt : Int
deriving Repr, DecidableEq

/-- Row of the `audit_logs` table (class `AuditLog`). -/
structure AuditRow where
  id : Nat
  user_id : Nat
  eventType : String
  eventData : Option String
  ipAddress : Option String
  userAgent : Option String
  createdAt : Int
  retentionUntil : Option Int
deriving Repr, DecidableEq

/-- The relational store: the five entity tables plus the users table. -/
structure Store where
  users : List UserRow
  resumes : List ResumeRow
  sessions : List SessionRow
  segments : List SegmentRow
  suggestions : List SuggestionRow
  auditLogs : List AuditRow
deriving Repr, DecidableEq

/-- The `deleted_items` dictionary built by
`PrivacyService.delete_user_data`.  `vector_data` is present only when
`delete_vector_data` was passed; `transcript_segments` and `suggestions`
are present only when the user had at least one session (the code guards
those two deletes with `if session_ids:`). -/
structure DeletionReport where
  vector_data : Option Bool
  audit_logs : Nat
  transcript_segments : Option Nat
  suggestions : Option Nat
  sessions : Nat
  resumes : Nat
  user : Nat
deriving Repr, DecidableEq

/-- Embeds `PrivacyService.delete_user_data(user_id, delete_vector_data)`
(privacy_service.py lines 220-296).  `vectorOk` is the boolean returned by
the gateway call `VectorService.delete_user_data` (vector_service.py lines
220-239), which catches every exception internally and returns False on
failure, so the gateway never raises into this function.  Returns `none`
(the `{"error": "User not found"}` dictionary) when no user with the id
exists, leaving the store untouched; otherwise deletes, in the source's
statement order, the user's audit logs, the transcript segments and
suggestions of the user's sessions, the user's sessions, the user's
resumes, and the user row itself, committing at the end, and returns the
`deleted_items` rowcounts. -/
def delete_user_data (delete_vector_data : Bool) (vectorOk : Bool)
    (st : Store) (user_id : Nat) : Option DeletionReport × Store :=
  match st.users.find? (fun u => decide (u.id = user_id)) with
  | none => (none, st)
  | some _ =>
    let vd : Option Bool := if delete_vector_data then some vectorOk else none
    let auditCount := st.auditLogs.countP (fun a => decide (a.user_id = user_id))
    let auditKeep := st.auditLogs.filter (fun a => !(decide (a.user_id = user_id)))
    let session_ids :=
      (st.sessions.filter (fun s => decide (s.user_id = user_id))).map SessionRow.id
    let segCount : Option Nat :=
      if session_ids.isEmpty then none
      else some (st.segments.countP (fun g => session_ids.contains g.session_id))
    let segKeep :=
      if session_ids.isEmpty then st.segments
      else st.segments.filter (fun g => !(session_ids.contains g.session_id))
    let sugCount : Option Nat :=
      if session_ids.isEmpty then none
      else some (st.suggestions.countP (fun g => session_ids.contains g.session_id))
    let sugKeep :=
      if session_ids.isEmpty then st.suggestions
      else st.suggestions.filter (fun g => !(session_ids.contains g.session_id))
    let sessCount := st.sessions.countP (fun s => decide (s.user_id = user_id))
    let sessKeep := st.sessions.filter (fun s => !(decide (s.user_id = user_id)))
    let resCount := st.resumes.countP (fun r => decide (r.user_id = user_id))
    let resKeep := st.resumes.filter (fun r => !(decide (r.user_id = user_id)))
    let userCount := st.users.countP (fun u => decide (u.id = user_id))
    let userKeep := st.users.filter (fun u => !(decide (u.id = user_id)))
    (some { vector_data := vd, audit_logs := auditCount,
            transcript_segments := segCount, suggestions := sugCount,
            sessions := sessCount, resumes := resCount, user := userCount },
     { users := userKeep, resumes := resKeep, sessions := sessKeep,
       segments := segKeep, suggestions := sugKeep, auditLogs := auditKeep })

/-- The `deleted_counts` dictionary accumulated by
`PrivacyService.auto_delete_expired_data` (privacy_service.py line 301). -/
structure SweepCounts where
  transcripts : Nat
  suggestions : Nat
  sessions : Nat
  audit_logs : Nat
deriving Repr, DecidableEq

/-- The SQL predicate `Session.ended_at < cutoff_time AND
Session.ended_at.isnot(None)` of the sweep's expired-session select
(privacy_service.py lines 331-337): a session is expired when it has ended
and its end predates the cutoff; an open session (`ended_at` NULL) never
satisfies it. -/
def sessionExpired (cutoff : Int) (s : SessionRow) : Bool :=
  match s.endedAt with
  | some t => decide (t < cutoff)
  | none => false

/-- One iteration of the sweep's per-user loop
(privacy_service.py lines 314-364): skip the user when
`retention_hours <= 0`; otherwise with `cutoff = now - retention_hours`
delete the user's audit logs older than the cutoff, select the user's
expired closed sessions, and (when there are any) delete the transcript
segments and suggestions carrying those session ids and then the sessions
with those ids, accumulating the rowcounts into `acc`. -/
def sweepUser (now : Int) (u : UserRow) (acc : SweepCounts) (st : Store) :
    SweepCounts × Store :=
  if u.retentionHours ≤ 0 then (acc, st)
  else
    let cutoff := now - u.retentionHours
    let auditCount :=
      st.auditLogs.countP (fun a => decide (a.user_id = u.id) && decide (a.createdAt < cutoff))
    let auditKeep :=
      st.auditLogs.filter (fun a => !(decide (a.user_id = u.id) && decide (a.createdAt < cutoff)))
    let expired_session_ids :=
      ((st.sessions.filter (fun s => decide (s.user_id = u.id) && sessionExpired cutoff s)).map
        SessionRow.id)
    if expired_session_ids.isEmpty then
      ({ acc with audit_logs := acc.audit_logs + auditCount },
       { st with auditLogs := auditKeep })
    else
      let segCount := st.segments.countP (fun g => expired_session_ids.contains g.session_id)
      let segKeep := st.segments.filter (fun g => !(expired_session_ids.contains g.session_id))
      let sugCount := st.suggestions.countP (fun g => expired_session_ids.contains g.session_id)
      let sugKeep := st.suggestions.filter (fun g => !(expired_session_ids.contains g.session_id))
      let sessCount := st.sessions.countP (fun s => expired_session_ids.contains s.id)
      let sessKeep := st.sessions.filter (fun s => !(expired_session_ids.contains s.id))
      ({ transcripts := acc.transcripts + segCount,
         suggestions := acc.suggestions + sugCount,
         sessions := acc.sessions + sessCount,
         audit_logs := acc.audit_logs + auditCount },
       { st with auditLogs := auditKeep, segments := segKeep,
                 suggestions := sugKeep, sessions := sessKeep })

/-- The sweep's loop over the users selected upfront with
`auto_delete_enabled == True` (privacy_service.py lines 309-365). -/
def sweepGo (now : Int) : List UserRow → SweepCounts → Store → SweepCounts × Store
  | [], acc, st => (acc, st)
  | u :: rest, acc, st =>
    let r := sweepUser now u acc st
    sweepGo now rest r.1 r.2

/-- Embeds `PrivacyService.auto_delete_expired_data`
(privacy_service.py lines 298-377) in the run where no exception occurs:
select the users with `auto_delete_enabled`, run the per-user loop, commit
once at the end, and return the accumulated `deleted_counts`. -/
def auto_delete_expired_data (now : Int) (st : Store) : SweepCounts × Store :=
  sweepGo now (st.users.filter UserRow.autoDeleteEnabled)
    { transcripts := 0, suggestions := 0, sessions := 0, audit_logs := 0 } st

/-- The sweep's loop with a failure oracle: `failsFor uid` says that an
exception is raised while processing the user with id `uid` (a user skipped
by the `retention_hours <= 0` guard does no store work, so it cannot fail).
`none` means the loop raised. -/
def sweepGoF (failsFor : Nat → Bool) (now : Int) :
    List UserRow → SweepCounts → Store → Option (SweepCounts × Store)
  | [], acc, st => some (acc, st)
  | u :: rest, acc, st =>
    if u.retentionHours ≤ 0 then sweepGoF failsFor now rest acc st
    else if failsFor u.id then none
    else
      let r := sweepUser now u acc st
      sweepGoF failsFor now rest r.1 r.2

/-- Embeds `PrivacyService.auto_delete_expired_data`
(privacy_service.py lines 298-377) with its error handling made explicit:
the whole per-user loop runs inside one `try` with a single `commit()`
after it, and the `except` branch calls `rollback()` and returns
`{"error": str(e)}`.  So when processing any user raises, every delete
already issued — including those for users processed earlier — is rolled
back, the store is left as it was at the call, and the caller gets a bare
error with no per-user failure list and no counts. -/
def auto_delete_expired_data_f (failsFor : Nat → Bool) (now : Int) (st : Store) :
    Except String SweepCounts × Store :=
  match sweepGoF failsFor now (st.users.filter UserRow.autoDeleteEnabled)
      { transcripts := 0, suggestions := 0, sessions := 0, audit_logs := 0 } st with
  | some (counts, st') => (Except.ok counts, st')
  | none => (Except.error "Error in auto-delete cleanup", st)

/-- The success dictionary of `PrivacyService.update_retention_policy`
(privacy_service.py lines 396-401). -/
structure PolicyResult where
  user_id : Nat
  new_retention_hours : Int
deriving Repr, DecidableEq

/-- Embeds `PrivacyService.update_retention_policy(user_id, retention_hours)`
(privacy_service.py lines 379-406): load the user (`none`, the
`{"error": "User not found"}` dictionary, when absent), then set
`retention_hours` to the given value and `auto_delete_enabled` to True on
that user row and commit.  The function body contains no check of
`retention_hours`: any integer is persisted as given. -/
def update_retention_policy (st : Store) (user_id : Nat) (retention_hours : Int) :
    Option PolicyResult × Store :=
  match st.users.find? (fun u => decide (u.id = user_id)) with
  | none => (none, st)
  | some _ =>
    let users' := st.users.map (fun u =>
      if u.id = user_id then
        { u with retentionHours := retention_hours, autoDeleteEnabled := true }
      else u)
    (some { user_id := user_id, new_retention_hours := retention_hours },
     { st with users := users' })

/-- The bound the `UserUpdate` request schema (schemas/user.py lines 20-25)
places on `retention_hours`: `Field(None, ge=1, le=168)`.  This schema is
used by the profile-update endpoint `PATCH /users/me`, not by
`PrivacyService.update_retention_policy`. -/
def userUpdate_retention_hours_valid (h : Int) : Bool :=
  decide (1 ≤ h) && decide (h ≤ 168)

/-- Embeds `SecurityService.should_delete_data(created_at, retention_hours)`
(security_service.py lines 215-221): `retention_hours <= 0` means never
delete; otherwise the data is due once `now` is past
`created_at + retention_hours`. -/
def should_delete_data (now createdAt : Int) (retentionHours : Int) : Bool :=
  if retentionHours ≤ 0 then false
  else decide (now > createdAt + retentionHours)

/-- A Python runtime error surfaced by a modelled function. -/
inductive PyErr where
  | nameError (name : String)
deriving Repr, DecidableEq

/-- Embeds `SecurityService.create_audit_log(user_id, event_type,
event_data, ip_address, user_agent)` (security_service.py lines 141-152).
The first expression the body evaluates is
`json.dumps(event_data)` (line 147), but `json` is imported nowhere in
security_service.py (the module imports are os, hashlib, hmac, base64,
datetime, typing, cryptography, jwt, passlib and app.core.config.settings,
and no function-local `import json` exists), so every call raises
`NameError: name 'json' is not defined` before `redact_pii` runs and before
any entry is built. -/
def create_audit_log (now : Int) (user_id : Nat) (event_type : String)
    (event_data : List (String × String)) (ip_address user_agent : Option String) :
    Except PyErr AuditRow :=
  Except.error (PyErr.nameError "json")

/-- Embeds `AuthService.update_user(user_id, **kwargs)` (auth_service.py
lines 68-77) for the single keyword argument `is_active` (the call the
account-deletion endpoint makes): load the user by id (`none` when absent,
nothing changed), else set `is_active` on that row and commit. -/
def update_user_is_active (st : Store) (user_id : Nat) (value : Bool) :
    Option UserRow × Store :=
  match st.users.find? (fun u => decide (u.id = user_id)) with
  | none => (none, st)
  | some u =>
    let users' := st.users.map (fun v =>
      if v.id = user_id then { v with isActive := value } else v)
    (some { u with isActive := value }, { st with users := users' })

/-- Embeds the endpoint `DELETE /users/me` (`delete_my_account`,
api/v1/endpoints/users.py lines 51-66): despite its docstring, the body
only calls `update_user(current_user.id, is_active=False)` (the cascading
delete is an unimplemented TODO) and then returns
`{"message": "Account deleted successfully"}` unconditionally. -/
def delete_my_account (st : Store) (current_user_id : Nat) : String × Store :=
  let r := update_user_is_active st current_user_id false
  ("Account deleted successfully", r.2)

/-- The export dictionary built by `PrivacyService.export_user_data`
(privacy_service.py lines 124-212).  The source formats every selected row
into a dictionary holding exactly that row's columns (timestamps rendered
with `isoformat()`, kept here in the absolute integer model) plus an
`export_info` header; we keep the selected rows themselves. -/
structure ExportDoc where
  user_id : Nat
  user_profile : UserRow
  resumes : List ResumeRow
  sessions : List SessionRow
  transcripts : List SegmentRow
  suggestions : List SuggestionRow
  audit_logs : List AuditRow
deriving Repr, DecidableEq

/-- Embeds `PrivacyService.export_user_data(user_id)`
(privacy_service.py lines 82-218): pure reads only.  Returns `none` (the
`{"error": "User not found"}` dictionary) when no user with the id exists;
otherwise selects the user's resumes (with no `is_active` filter), the
user's sessions, the transcript segments and suggestions whose
`session_id` is among those sessions' ids, and the user's audit logs, and
assembles the nested export document. -/
def export_user_data (st : Store) (user_id : Nat) : Option ExportDoc :=
  match st.users.find? (fun u => decide (u.id = user_id)) with
  | none => none
  | some user =>
    let resumes := st.resumes.filter (fun r => decide (r.user_id = user_id))
    let sessions := st.sessions.filter (fun s => decide (s.user_id = user_id))
    let session_ids := sessions.map SessionRow.id
    let transcripts := st.segments.filter (fun g => session_ids.contains g.session_id)
    let suggestions := st.suggestions.filter (fun g => session_ids.contains g.session_id)
    let audit_logs := st.auditLogs.filter (fun a => decide (a.user_id = user_id))
    some { user_id := user_id, user_profile := user, resumes := resumes,
           sessions := sessions, transcripts := transcripts,
           suggestions := suggestions, audit_logs := audit_logs }

/-! Concrete sample data for the witnesses and counterexamples.  Clock:
`now = 100`; users 1 and 2 have a 24-hour horizon, so their cutoff is 76;
user 3 carries the `retention_hours = 0` sentinel. -/

/-- Sample user 1: auto-delete enabled, 24-hour horizon. -/
def sampleUser1 : UserRow :=
  { id := 1, email := "a@x.com", authProvider := "email", createdAt := 0,
    isActive := true, isVerified := true, autoDeleteEnabled := true,
    retentionHours := 24, preferredLlmModel := "m", overlayPosition := "bottom-right" }

/-- Sample user 2: auto-delete enabled, 24-hour horizon. -/
def sampleUser2 : UserRow :=
  { id := 2, email := "b@x.com", authProvider := "email", createdAt := 0,
    isActive := true, isVerified := false, autoDeleteEnabled := true,
    retentionHours := 24, preferredLlmModel := "m", overlayPosition := "bottom-right" }

/-- Sample user 3: auto-delete enabled but `retention_hours = 0`
(the never-auto-delete sentinel). -/
def sampleUser3 : UserRow :=
  { id := 3, email := "c@x.com", authProvider := "email", createdAt := 0,
    isActive := true, isVerified := false, autoDeleteEnabled := true,
    retentionHours := 0, preferredLlmModel := "m", overlayPosition := "bottom-right" }

/-- An old closed session of user 1 (ended at 10, before the cutoff 76). -/
def sessOldClosed1 : SessionRow :=
  { id := 20, user_id := 1, platform := some "zoom", sessionType := "interview",
    startedAt := 0, endedAt := some 10, durationMinutes := some 10,
    retentionPolicy := "auto", privacyMode := false, isActive := false }

/-- An old but still open session of user 1 (`ended_at` NULL). -/
def sessOldOpen1 : SessionRow :=
  { id := 21, user_id := 1, platform := none, sessionType := "interview",
    startedAt := 0, endedAt := none, durationMinutes := none,
    retentionPolicy := "auto", privacyMode := false, isActive := true }

/-- A recent closed session of user 1 (ended at 99, after the cutoff 76). -/
def sessRecent1 : SessionRow :=
  { id := 22, user_id := 1, platform := some "meet", sessionType := "interview",
    startedAt := 90, endedAt := some 99, durationMinutes := some 9,
    retentionPolicy := "auto", privacyMode := false, isActive := false }

/-- An old closed session of user 2 (ended at 10, before the cutoff 76). -/
def sessOldClosed2 : SessionRow :=
  { id := 23, user_id := 2, platform := some "zoom", sessionType := "interview",
    startedAt := 0, endedAt := some 10, durationMinutes := some 10,
    retentionPolicy := "auto", privacyMode := false, isActive := false }

/-- An ancient closed session of the sentinel user 3. -/
def sessOldClosed3 : SessionRow :=
  { id := 24, user_id := 3, platform := none, sessionType := "interview",
    startedAt := 0, endedAt := some 1, durationMinutes := some 1,
    retentionPolicy := "auto", privacyMode := false, isActive := false }

/-- The sample store the witnesses run the operations on. -/
def sampleStore : Store :=
  { users := [sampleUser1, sampleUser2, sampleUser3],
    resumes :=
      [{ id := 10, user_id := 1, filename := "cv.pdf", fileSize := 100,
         mimeType := "application/pdf", uploadedAt := 1, skills := some "[]",
         experienceYears := some 3, educationLevel := none, currentRole := none,
         isActive := true },
       { id := 11, user_id := 2, filename := "cv2.pdf", fileSize := 200,
         mimeType := "application/pdf", uploadedAt := 2, skills := none,
         experienceYears := none, educationLevel := none, currentRole := none,
         isActive := false }],
    sessions := [sessOldClosed1, sessOldOpen1, sessRecent1, sessOldClosed2, sessOldClosed3],
    segments :=
      [{ id := 30, session_id := 20, startMs := 0, endMs := 5, text := "hi",
         speaker := some "user", confidence := some 90, isFinal := true, createdAt := 1 },
       { id := 31, session_id := 21, startMs := 0, endMs := 5, text := "open",
         speaker := none, confidence := none, isFinal := false, createdAt := 2 },
       { id := 32, session_id := 22, startMs := 0, endMs := 5, text := "new",
         speaker := none, confidence := none, isFinal := true, createdAt := 95 },
       { id := 33, session_id := 23, startMs := 0, endMs := 5, text := "u2",
         speaker := none, confidence := none, isFinal := true, createdAt := 3 },
       { id := 34, session_id := 24, startMs := 0, endMs := 5, text := "u3",
         speaker := none, confidence := none, isFinal := true, createdAt := 1 }],
    suggestions :=
      [{ id := 40, session_id := 20, segment_id := some 30, content := "s",
         suggestionType := "answer", llmModel := some "m", accepted := false,
         dismissed := false, feedbackRating := none, createdAt := 1 },
       { id := 41, session_id := 21, segment_id := none, content := "s",
         suggestionType := "tip", llmModel := none, accepted := true,
         dismissed := false, feedbackRating := some 5, createdAt := 2 },
       { id := 42, session_id := 23, segment_id := some 33, content := "s",
         suggestionType := "answer", llmModel := none, accepted := false,
         dismissed := true, feedbackRating := none, createdAt := 3 }],
    auditLogs :=
      [{ id := 50, user_id := 1, eventType := "login", eventData := none,
         ipAddress := some "1.2.3.4", userAgent := none, createdAt := 5,
         retentionUntil := some 29 },
       { id := 51, user_id := 1, eventType := "upload", eventData := some "x",
         ipAddress := none, userAgent := none, createdAt := 95,
         retentionUntil := some 119 },
       { id := 52, user_id := 2, eventType := "login", eventData := none,
         ipAddress := none, userAgent := none, createdAt := 5,
         retentionUntil := some 29 },
       { id := 53, user_id := 3, eventType := "login", eventData := none,
         ipAddress := none, userAgent := none, createdAt := 1,
         retentionUntil := some 25 }] }

/-! Helper lemmas about the list-level store operations. -/

/-- A `find?` for `p` over rows from which every `p`-row was filtered out
finds nothing. -/
lemma find?_filter_not_self {α : Type} (p : α → Bool) (l : List α) :
    (l.filter (fun a => !(p a))).find? p = none := by
  refine List.find?_eq_none.mpr ?_
  intro x hx
  have hx' := (List.mem_filter.mp hx).2
  simp only [Bool.not_eq_eq_eq_not, Bool.not_true] at hx'
  simp [hx']

/-- Counting `p`-rows after filtering them all out yields zero. -/
lemma countP_filter_not_self {α : Type} (p : α → Bool) (l : List α) :
    (l.filter (fun a => !(p a))).countP p = 0 := by
  refine List.countP_eq_zero.mpr ?_
  intro x hx
  have hx' := (List.mem_filter.mp hx).2
  simp only [Bool.not_eq_eq_eq_not, Bool.not_true] at hx'
  simp [hx']

/-- Any row surviving the guarded cascade delete (`if session_ids: delete
... in_(session_ids)`) carries none of the listed session ids. -/
lemma mem_guarded_filter {α : Type} (ids : List Nat) (key : α → Nat) (l : List α) (x : α)
    (hx : x ∈ if ids.isEmpty then l else l.filter (fun a => !(ids.contains (key a)))) :
    ids.contains (key x) = false := by
  by_cases hid : ids.isEmpty = true
  · have : ids = [] := List.isEmpty_iff.mp hid
    subst this
    rfl
  · rw [if_neg hid] at hx
    have hx' := (List.mem_filter.mp hx).2
    simp only [Bool.not_eq_eq_eq_not, Bool.not_true] at hx'
    exact hx'

/-- C3: for every user present in the store, `delete_user_data` (eraseUser)
deletes, within the one transaction committed at its end, the user's audit
logs, then the transcript segments and suggestions whose `session_id` is
among the user's session ids, then the user's sessions, then the user's
resumes, and the user row last (the definition follows the source's
statement order); afterwards no segment and no suggestion referencing any
of the deleted session ids remains. -/
theorem delete_user_data_cascade (vectorOk : Bool) (st : Store) (uid : Nat)
    (h : (st.users.find? (fun u => decide (u.id = uid))).isSome = true) :
    (delete_user_data true vectorOk st uid).1.isSome = true ∧
    (delete_user_data true vectorOk st uid).2.users
      = st.users.filter (fun u => !(decide (u.id = uid))) ∧
    (delete_user_data true vectorOk st uid).2.auditLogs
      = st.auditLogs.filter (fun a => !(decide (a.user_id = uid))) ∧
    (delete_user_data true vectorOk st uid).2.sessions
      = st.sessions.filter (fun s => !(decide (s.user_id = uid))) ∧
    (delete_user_data true vectorOk st uid).2.resumes
      = st.resumes.filter (fun r => !(decide (r.user_id = uid))) ∧
    (∀ g ∈ (delete_user_data true vectorOk st uid).2.segments,
      (((st.sessions.filter (fun s => decide (s.user_id = uid))).map
          SessionRow.id).contains g.session_id) = false) ∧
    (∀ g ∈ (delete_user_data true vectorOk st uid).2.suggestions,
      (((st.sessions.filter (fun s => decide (s.user_id = uid))).map
          SessionRow.id).contains g.session_id) = false) := by
  obtain ⟨u, hfind⟩ := Option.isSome_iff_exists.mp h
  simp only [delete_user_data, hfind]
  refine ⟨rfl, trivial, trivial, trivial, trivial, ?_, ?_⟩
  · intro g hg
    exact mem_guarded_filter _ SegmentRow.session_id st.segments g hg
  · intro g hg
    exact mem_guarded_filter _ SuggestionRow.session_id st.suggestions g hg

/-- Witness for C3 at the sample store: user 1 is present; the erasure
leaves exactly the other users' sessions, and no surviving segment or
suggestion references one of user 1's sessions. -/
theorem delete_user_data_cascade_witness :
    (sampleStore.users.find? (fun u => decide (u.id = 1))).isSome = true ∧
    (delete_user_data true true sampleStore 1).2.sessions = [sessOldClosed2, sessOldClosed3] ∧
    (∀ g ∈ (delete_user_data true true sampleStore 1).2.segments,
      (((sampleStore.sessions.filter (fun s => decide (s.user_id = 1))).map
          SessionRow.id).contains g.session_id) = false) ∧
    (∀ g ∈ (delete_user_data true true sampleStore 1).2.suggestions,
      (((sampleStore.sessions.filter (fun s => decide (s.user_id = 1))).map
          SessionRow.id).contains g.session_id) = false) := by
  have h := delete_user_data_cascade true sampleStore 1 rfl
  exact ⟨rfl, by decide, h.2.2.2.2.2.1, h.2.2.2.2.2.2⟩

/-- `delete_user_data` on an absent user id is a pure no-op returning the
not-found result (privacy_service.py lines 229-230). -/
lemma delete_user_data_not_found (delete_vector_data vectorOk : Bool)
    (st : Store) (uid : Nat)
    (h : st.users.find? (fun u => decide (u.id = uid)) = none) :
    delete_user_data delete_vector_data vectorOk st uid = (none, st) := by
  simp only [delete_user_data, h]

/-- C4: `delete_user_data` (eraseUser) is idempotent: on a user present in
the store the first call returns a full deletion report, and the second
call finds no user, mutates nothing (it returns before any delete
statement), and returns the not-found result rather than raising. -/
theorem delete_user_data_idempotent (vectorOk : Bool) (st : Store) (uid : Nat)
    (h : (st.users.find? (fun u => decide (u.id = uid))).isSome = true) :
    (delete_user_data true vectorOk st uid).1.isSome = true ∧
    delete_user_data true vectorOk (delete_user_data true vectorOk st uid).2 uid
      = (none, (delete_user_data true vectorOk st uid).2) := by
  obtain ⟨u, hfind⟩ := Option.isSome_iff_exists.mp h
  have husers : (delete_user_data true vectorOk st uid).2.users
      = st.users.filter (fun v => !(decide (v.id = uid))) := by
    simp only [delete_user_data, hfind]
  have hnone : ((delete_user_data true vectorOk st uid).2.users).find?
      (fun v => decide (v.id = uid)) = none := by
    rw [husers]
    exact find?_filter_not_self _ _
  constructor
  · simp only [delete_user_data, hfind]
    rfl
  · exact delete_user_data_not_found true vectorOk _ uid hnone

/-- Witness for C4 at the sample store: erasing user 1 succeeds, and a
second erasure is a not-found no-op on the already-erased store. -/
theorem delete_user_data_idempotent_witness :
    (sampleStore.users.find? (fun u => decide (u.id = 1))).isSome = true ∧
    ((delete_user_data true true sampleStore 1).1.isSome = true ∧
     delete_user_data true true (delete_user_data true true sampleStore 1).2 1
       = (none, (delete_user_data true true sampleStore 1).2)) :=
  ⟨rfl, delete_user_data_idempotent true sampleStore 1 rfl⟩

/-- C7: a failed external-index deletion (the gateway call
`VectorService.delete_user_data` catches its client's exception, logs it
and returns False, so nothing is raised to `PrivacyService.delete_user_data`)
does not block or change the relational erasure: the resulting store is the
same as on a successful gateway call, the report is returned (not an
error), it records `vector_data = False` alongside the same per-entity
counts as the success run, and afterwards no relational row of the user
remains. -/
theorem delete_user_data_vector_failure_isolated (st : Store) (uid : Nat)
    (h : (st.users.find? (fun u => decide (u.id = uid))).isSome = true) :
    (delete_user_data true false st uid).2 = (delete_user_data true true st uid).2 ∧
    (delete_user_data true false st uid).1.isSome = true ∧
    (delete_user_data true false st uid).1.map DeletionReport.vector_data
      = some (some false) ∧
    (delete_user_data true false st uid).1.map DeletionReport.audit_logs
      = (delete_user_data true true st uid).1.map DeletionReport.audit_logs ∧
    (delete_user_data true false st uid).1.map DeletionReport.transcript_segments
      = (delete_user_data true true st uid).1.map DeletionReport.transcript_segments ∧
    (delete_user_data true false st uid).1.map DeletionReport.suggestions
      = (delete_user_data true true st uid).1.map DeletionReport.suggestions ∧
    (delete_user_data true false st uid).1.map DeletionReport.sessions
      = (delete_user_data true true st uid).1.map DeletionReport.sessions ∧
    (delete_user_data true false st uid).1.map DeletionReport.resumes
      = (delete_user_data true true st uid).1.map DeletionReport.resumes ∧
    (delete_user_data true false st uid).1.map DeletionReport.user
      = (delete_user_data true true st uid).1.map DeletionReport.user ∧
    (delete_user_data true false st uid).2.users.find? (fun u => decide (u.id = uid))
      = none ∧
    (delete_user_data true false st uid).2.auditLogs.countP
      (fun a => decide (a.user_id = uid)) = 0 ∧
    (delete_user_data true false st uid).2.sessions.countP
      (fun s => decide (s.user_id = uid)) = 0 ∧
    (delete_user_data true false st uid).2.resumes.countP
      (fun r => decide (r.user_id = uid)) = 0 := by
  obtain ⟨u, hfind⟩ := Option.isSome_iff_exists.mp h
  have husers : (delete_user_data true false st uid).2.users
      = st.users.filter (fun v => !(decide (v.id = uid))) := by
    simp only [delete_user_data, hfind]
  have haudit : (delete_user_data true false st uid).2.auditLogs
      = st.auditLogs.filter (fun a => !(decide (a.user_id = uid))) := by
    simp only [delete_user_data, hfind]
  have hsess : (delete_user_data true false st uid).2.sessions
      = st.sessions.filter (fun s => !(decide (s.user_id = uid))) := by
    simp only [delete_user_data, hfind]
  have hres : (delete_user_data true false st uid).2.resumes
      = st.resumes.filter (fun r => !(decide (r.user_id = uid))) := by
    simp only [delete_user_data, hfind]
  refine ⟨by simp only [delete_user_data, hfind], by simp only [delete_user_data, hfind]; rfl,
          by simp only [delete_user_data, hfind]; rfl,
          by simp only [delete_user_data, hfind]; rfl,
          by simp only [delete_user_data, hfind]; rfl,
          by simp only [delete_user_data, hfind]; rfl,
          by simp only [delete_user_data, hfind]; rfl,
          by simp only [delete_user_data, hfind]; rfl,
          by simp only [delete_user_data, hfind]; rfl,
          ?_, ?_, ?_, ?_⟩
  · rw [husers]
    exact find?_filter_not_self _ _
  · rw [haudit]
    exact countP_filter_not_self _ _
  · rw [hsess]
    exact countP_filter_not_self _ _
  · rw [hres]
    exact countP_filter_not_self _ _

/-- Witness for C7 at the sample store: with the gateway failing for user
1, the report still comes back with `vector_data = False` and the non-zero
per-entity counts, and the relational erasure is complete. -/
theorem delete_user_data_vector_failure_witness :
    (sampleStore.users.find? (fun u => decide (u.id = 1))).isSome = true ∧
    (delete_user_data true false sampleStore 1).1
      = some { vector_data := some false, audit_logs := 2,
               transcript_segments := some 3, suggestions := some 2,
               sessions := 3, resumes := 1, user := 1 } ∧
    (delete_user_data true false sampleStore 1).2
      = (delete_user_data true true sampleStore 1).2 := by
  have h := delete_user_data_vector_failure_isolated sampleStore 1 rfl
  exact ⟨rfl, by decide, h.1⟩

/-- With distinct session ids, a session's id occurs among the ids of the
`p`-filtered sessions exactly when the session itself satisfies `p`. -/
lemma contains_filter_map_id {l : List SessionRow}
    (hnd : (l.map SessionRow.id).Nodup) (p : SessionRow → Bool)
    {s : SessionRow} (hs : s ∈ l) :
    (((l.filter p).map SessionRow.id).contains s.id) = p s := by
  cases hp : p s
  · refine Bool.eq_false_iff.mpr (fun hc => ?_)
    have hmem : s.id ∈ (l.filter p).map SessionRow.id := by simpa using hc
    obtain ⟨s', hs', hid⟩ := List.mem_map.mp hmem
    obtain ⟨hs'l, hps'⟩ := List.mem_filter.mp hs'
    have heq : s' = s := List.inj_on_of_nodup_map hnd hs'l hs hid
    rw [heq, hp] at hps'
    exact Bool.false_ne_true hps'
  · have hmemf : s ∈ l.filter p := List.mem_filter.mpr ⟨hs, hp⟩
    have : s.id ∈ (l.filter p).map SessionRow.id := List.mem_map_of_mem _ hmemf
    simpa using this

/-- C5: one sweep iteration for a user with a positive horizon, with
`cutoff = now - retention_hours`, deletes exactly the user's audit logs
with `created_at < cutoff` and the user's sessions with
`ended_at < cutoff AND ended_at IS NOT NULL`, together with the transcript
segments and suggestions carrying those expired sessions' ids and nothing
else; an open session (`ended_at` NULL) always survives, and the resumes
and users tables are untouched.  Session ids are assumed distinct (they
are a primary key). -/
theorem sweepUser_expiry_scope (now : Int) (u : UserRow) (acc : SweepCounts) (st : Store)
    (hret : 0 < u.retentionHours)
    (hnd : (st.sessions.map SessionRow.id).Nodup) :
    (sweepUser now u acc st).2.resumes = st.resumes ∧
    (sweepUser now u acc st).2.users = st.users ∧
    (sweepUser now u acc st).2.auditLogs
      = st.auditLogs.filter (fun a =>
          !(decide (a.user_id = u.id) && decide (a.createdAt < now - u.retentionHours))) ∧
    (sweepUser now u acc st).2.sessions
      = st.sessions.filter (fun s =>
          !(decide (s.user_id = u.id) && sessionExpired (now - u.retentionHours) s)) ∧
    (∀ s ∈ st.sessions, s.endedAt = none → s ∈ (sweepUser now u acc st).2.sessions) ∧
    (sweepUser now u acc st).2.segments
      = st.segments.filter (fun g =>
          !(((st.sessions.filter (fun s =>
                decide (s.user_id = u.id) && sessionExpired (now - u.retentionHours) s)).map
              SessionRow.id).contains g.session_id)) ∧
    (sweepUser now u acc st).2.suggestions
      = st.suggestions.filter (fun g =>
          !(((st.sessions.filter (fun s =>
                decide (s.user_id = u.id) && sessionExpired (now - u.retentionHours) s)).map
              SessionRow.id).contains g.session_id)) := by
  have hng : ¬(u.retentionHours ≤ 0) := not_le.mpr hret
  by_cases hemp :
      ((st.sessions.filter (fun s =>
          decide (s.user_id = u.id) && sessionExpired (now - u.retentionHours) s)).map
        SessionRow.id).isEmpty = true
  case pos =>
    have hnil :
        ((st.sessions.filter (fun s =>
            decide (s.user_id = u.id) && sessionExpired (now - u.retentionHours) s)).map
          SessionRow.id) = [] := List.isEmpty_iff.mp hemp
    have hfnil : st.sessions.filter (fun s =>
        decide (s.user_id = u.id) && sessionExpired (now - u.retentionHours) s) = [] :=
      List.map_eq_nil_iff.mp hnil
    have hall : ∀ s ∈ st.sessions,
        (decide (s.user_id = u.id) && sessionExpired (now - u.retentionHours) s) = false := by
      intro s hs
      have h' := List.filter_eq_nil_iff.mp hfnil s hs
      revert h'
      cases decide (s.user_id = u.id) && sessionExpired (now - u.retentionHours) s <;> simp
    have hsw : sweepUser now u acc st
        = ({ acc with audit_logs := acc.audit_logs + st.auditLogs.countP (fun a =>
              decide (a.user_id = u.id) && decide (a.createdAt < now - u.retentionHours)) },
           { st with auditLogs := st.auditLogs.filter (fun a =>
              !(decide (a.user_id = u.id) && decide (a.createdAt < now - u.retentionHours))) }) := by
      simp only [sweepUser, if_neg hng, hemp, if_true]
    have hsessions : (sweepUser now u acc st).2.sessions = st.sessions := by
      rw [hsw]
    have hsessEq : st.sessions
        = st.sessions.filter (fun s =>
            !(decide (s.user_id = u.id) && sessionExpired (now - u.retentionHours) s)) := by
      refine (List.filter_eq_self.mpr ?_).symm
      intro s hs
      rw [hall s hs]
      rfl
    have hsegEq : st.segments
        = st.segments.filter (fun g =>
            !(((st.sessions.filter (fun s =>
                  decide (s.user_id = u.id) && sessionExpired (now - u.retentionHours) s)).map
                SessionRow.id).contains g.session_id)) := by
      refine (List.filter_eq_self.mpr ?_).symm
      intro g _
      rw [hnil]
      rfl
    have hsugEq : st.suggestions
        = st.suggestions.filter (fun g =>
            !(((st.sessions.filter (fun s =>
                  decide (s.user_id = u.id) && sessionExpired (now - u.retentionHours) s)).map
                SessionRow.id).contains g.session_id)) := by
      refine (List.filter_eq_self.mpr ?_).symm
      intro g _
      rw [hnil]
      rfl
    refine ⟨by rw [hsw], by rw [hsw], by rw [hsw], ?_, ?_, ?_, ?_⟩
    · rw [hsessions]
      exact hsessEq
    · intro s hs _
      rw [hsessions]
      exact hs
    · rw [hsw]
      exact hsegEq
    · rw [hsw]
      exact hsugEq
  case neg =>
    have hsw : sweepUser now u acc st
        = ({ transcripts := acc.transcripts + st.segments.countP (fun g =>
               (((st.sessions.filter (fun s =>
                    decide (s.user_id = u.id) && sessionExpired (now - u.retentionHours) s)).map
                  SessionRow.id).contains g.session_id)),
             suggestions := acc.suggestions + st.suggestions.countP (fun g =>
               (((st.sessions.filter (fun s =>
                    decide (s.user_id = u.id) && sessionExpired (now - u.retentionHours) s)).map
                  SessionRow.id).contains g.session_id)),
             sessions := acc.sessions + st.sessions.countP (fun s' =>
               (((st.sessions.filter (fun s =>
                    decide (s.user_id = u.id) && sessionExpired (now - u.retentionHours) s)).map
                  SessionRow.id).contains s'.id)),
             audit_logs := acc.audit_logs + st.auditLogs.countP (fun a =>
               decide (a.user_id = u.id) && decide (a.createdAt < now - u.retentionHours)) },
           { st with
             auditLogs := st.auditLogs.filter (fun a =>
               !(decide (a.user_id = u.id) && decide (a.createdAt < now - u.retentionHours))),
             segments := st.segments.filter (fun g =>
               !(((st.sessions.filter (fun s =>
                    decide (s.user_id = u.id) && sessionExpired (now - u.retentionHours) s)).map
                  SessionRow.id).contains g.session_id)),
             suggestions := st.suggestions.filter (fun g =>
               !(((st.sessions.filter (fun s =>
                    decide (s.user_id = u.id) && sessionExpired (now - u.retentionHours) s)).map
                  SessionRow.id).contains g.session_id)),
             sessions := st.sessions.filter (fun s' =>
               !(((st.sessions.filter (fun s =>
                    decide (s.user_id = u.id) && sessionExpired (now - u.retentionHours) s)).map
                  SessionRow.id).contains s'.id)) }) := by
      simp only [sweepUser, if_neg hng]
      rw [if_neg (fun hc => hemp hc)]
    have hsessEq : (sweepUser now u acc st).2.sessions
        = st.sessions.filter (fun s =>
            !(decide (s.user_id = u.id) && sessionExpired (now - u.retentionHours) s)) := by
      rw [hsw]
      refine List.filter_congr ?_
      intro s hs
      rw [contains_filter_map_id hnd _ hs]
    refine ⟨by rw [hsw], by rw [hsw], by rw [hsw], hsessEq, ?_, by rw [hsw], by rw [hsw]⟩
    intro s hs hopen
    rw [hsessEq]
    refine List.mem_filter.mpr ⟨hs, ?_⟩
    have : sessionExpired (now - u.retentionHours) s = false := by
      simp [sessionExpired, hopen]
    rw [this]
    simp

/-- Witness for C5 at the sample store, user 1 (horizon 24, `now = 100`,
cutoff 76): only the old closed session of user 1 is swept away — the open
session, the recent session, and the other users' sessions survive. -/
theorem sweepUser_expiry_scope_witness :
    0 < sampleUser1.retentionHours ∧
    (sampleStore.sessions.map SessionRow.id).Nodup ∧
    (sweepUser 100 sampleUser1
        { transcripts := 0, suggestions := 0, sessions := 0, audit_logs := 0 }
        sampleStore).2.sessions
      = [sessOldOpen1, sessRecent1, sessOldClosed2, sessOldClosed3] := by
  refine ⟨by decide, by decide, ?_⟩
  have h := sweepUser_expiry_scope 100 sampleUser1
      { transcripts := 0, suggestions := 0, sessions := 0, audit_logs := 0 }
      sampleStore (by decide) (by decide)
  rw [h.2.2.2.1]
  decide

/-- C6: for a user with `retention_hours <= 0` the sweep iteration is a
complete no-op — nothing of that user (or anyone else) is deleted and the
counts are unchanged, regardless of `auto_delete_enabled` (the loop's
`continue` fires before any delete); and
`SecurityService.should_delete_data` likewise answers False for every
creation time under such a horizon — a sentinel, not an error. -/
theorem sweepUser_sentinel_skip (now : Int) (u : UserRow) (acc : SweepCounts) (st : Store)
    (h : u.retentionHours ≤ 0) :
    sweepUser now u acc st = (acc, st) ∧
    (∀ createdAt : Int, should_delete_data now createdAt u.retentionHours = false) := by
  constructor
  · simp only [sweepUser, if_pos h]
  · intro c
    simp only [should_delete_data, if_pos h]

/-- Witness for C6 at the sample store: user 3 has
`auto_delete_enabled = True` and `retention_hours = 0`, and the sweep
iteration for user 3 changes nothing. -/
theorem sweepUser_sentinel_skip_witness :
    sampleUser3.retentionHours ≤ 0 ∧
    sampleUser3.autoDeleteEnabled = true ∧
    (sweepUser 100 sampleUser3
        { transcripts := 0, suggestions := 0, sessions := 0, audit_logs := 0 } sampleStore
      = ({ transcripts := 0, suggestions := 0, sessions := 0, audit_logs := 0 }, sampleStore) ∧
     ∀ createdAt : Int, should_delete_data 100 createdAt sampleUser3.retentionHours = false) :=
  ⟨by decide, by decide,
   sweepUser_sentinel_skip 100 sampleUser3
     { transcripts := 0, suggestions := 0, sessions := 0, audit_logs := 0 }
     sampleStore (by decide)⟩

/-- When any enabled user with a positive horizon fails, the sweep loop
raises (in list-processing order, the first such user is reached after the
earlier iterations either succeed or skip). -/
lemma sweepGoF_none (failsFor : Nat → Bool) (now : Int) :
    ∀ (l : List UserRow) (acc : SweepCounts) (st : Store),
      (∃ u ∈ l, 0 < u.retentionHours ∧ failsFor u.id = true) →
      sweepGoF failsFor now l acc st = none := by
  intro l
  induction l with
  | nil =>
    intro acc st h
    obtain ⟨u, hu, _⟩ := h
    exact absurd hu (List.not_mem_nil u)
  | cons u rest ih =>
    intro acc st h
    by_cases hret : u.retentionHours ≤ 0
    · have hrest : ∃ v ∈ rest, 0 < v.retentionHours ∧ failsFor v.id = true := by
        obtain ⟨v, hv, hvp, hvf⟩ := h
        rcases List.mem_cons.mp hv with rfl | hv'
        · exact absurd hret (not_le.mpr hvp)
        · exact ⟨v, hv', hvp, hvf⟩
      simp only [sweepGoF, if_pos hret]
      exact ih acc st hrest
    · by_cases hf : failsFor u.id = true
      · simp only [sweepGoF, if_neg hret, if_pos hf]
      · have hrest : ∃ v ∈ rest, 0 < v.retentionHours ∧ failsFor v.id = true := by
          obtain ⟨v, hv, hvp, hvf⟩ := h
          rcases List.mem_cons.mp hv with rfl | hv'
          · exact absurd hvf hf
          · exact ⟨v, hv', hvp, hvf⟩
        simp only [sweepGoF, if_neg hret, if_neg hf]
        exact ih _ _ hrest

/-- C1 as amended: a failure while processing any enabled user with a
positive horizon aborts the whole sweep — the single surrounding
transaction is rolled back, so the store comes back exactly as it was
(deletes already issued for earlier users included), and the caller gets
one bare error value carrying no failed-user-id list and no counts. -/
theorem auto_delete_sweep_aborts_on_failure (failsFor : Nat → Bool) (now : Int) (st : Store)
    (h : ∃ u ∈ st.users.filter UserRow.autoDeleteEnabled,
          0 < u.retentionHours ∧ failsFor u.id = true) :
    auto_delete_expired_data_f failsFor now st
      = (Except.error "Error in auto-delete cleanup", st) := by
  have hgo := sweepGoF_none failsFor now (st.users.filter UserRow.autoDeleteEnabled)
      { transcripts := 0, suggestions := 0, sessions := 0, audit_logs := 0 } st h
  simp only [auto_delete_expired_data_f, hgo]

/-- Witness for the amended C1 at the sample store: an exception on user
1's iteration makes the sweep return the error with the store unchanged. -/
theorem auto_delete_sweep_aborts_witness :
    (∃ u ∈ sampleStore.users.filter UserRow.autoDeleteEnabled,
        0 < u.retentionHours ∧ (fun i => decide (i = 1)) u.id = true) ∧
    auto_delete_expired_data_f (fun i => decide (i = 1)) 100 sampleStore
      = (Except.error "Error in auto-delete cleanup", sampleStore) :=
  ⟨⟨sampleUser1, by decide, by decide, by decide⟩,
   auto_delete_sweep_aborts_on_failure (fun i => decide (i = 1)) 100 sampleStore
     ⟨sampleUser1, by decide, by decide, by decide⟩⟩

/-- Counterexample to C1 as stated: with a failure on user 1's iteration
the sweep does NOT continue with the remaining users — it returns the bare
error dictionary and rolls the whole store back.  User 2 is enabled with a
positive horizon and owns the expired closed session `sessOldClosed2`
(before user 2's cutoff), yet after the failed sweep that session is still
there, while the failure-free sweep does delete it; and the error result
reports no failed user ids and no per-entity counts. -/
theorem sweep_failure_not_isolated_cex :
    auto_delete_expired_data_f (fun i => decide (i = 1)) 100 sampleStore
      = (Except.error "Error in auto-delete cleanup", sampleStore) ∧
    sampleUser2.autoDeleteEnabled = true ∧
    0 < sampleUser2.retentionHours ∧
    sessOldClosed2.user_id = sampleUser2.id ∧
    sessionExpired (100 - sampleUser2.retentionHours) sessOldClosed2 = true ∧
    sessOldClosed2
      ∈ (auto_delete_expired_data_f (fun i => decide (i = 1)) 100 sampleStore).2.sessions ∧
    sessOldClosed2 ∉ (auto_delete_expired_data 100 sampleStore).2.sessions :=
  ⟨rfl, rfl, by decide, rfl, rfl, by decide, by decide⟩

/-- Counterexample to C2 as stated: `update_retention_policy` accepts and
persists a `retention_hours` of 500, far outside the 1-168 bound — no
rejection happens before the mutation.  (The bound exists only in the
`UserUpdate` request schema of the profile-update endpoint.) -/
theorem update_retention_policy_no_validation_cex :
    userUpdate_retention_hours_valid 500 = false ∧
    (update_retention_policy sampleStore 1 500).1
      = some { user_id := 1, new_retention_hours := 500 } ∧
    ((update_retention_policy sampleStore 1 500).2.users.find?
        (fun u => decide (u.id = 1))).map UserRow.retentionHours = some 500 ∧
    ((update_retention_policy sampleStore 1 500).2.users.find?
        (fun u => decide (u.id = 1))).map UserRow.autoDeleteEnabled = some true :=
  ⟨rfl, rfl, rfl, rfl⟩

/-- C2 as amended: for every user present, `update_retention_policy`
persists `retention_hours = horizonHours` unconditionally — any integer,
bounds unchecked — and sets `auto_delete_enabled = true`, with no side
effects beyond the user record: every other table is untouched and every
other user row is unchanged.  The 1-168 validation lives only in the
`UserUpdate` schema (`userUpdate_retention_hours_valid`) used by the
profile-update endpoint, not in this function. -/
theorem update_retention_policy_persists (st : Store) (uid : Nat) (hours : Int)
    (hu : (st.users.find? (fun u => decide (u.id = uid))).isSome = true) :
    (update_retention_policy st uid hours).1
      = some { user_id := uid, new_retention_hours := hours } ∧
    (update_retention_policy st uid hours).2.resumes = st.resumes ∧
    (update_retention_policy st uid hours).2.sessions = st.sessions ∧
    (update_retention_policy st uid hours).2.segments = st.segments ∧
    (update_retention_policy st uid hours).2.suggestions = st.suggestions ∧
    (update_retention_policy st uid hours).2.auditLogs = st.auditLogs ∧
    (update_retention_policy st uid hours).2.users.length = st.users.length ∧
    (∀ v ∈ st.users, v.id ≠ uid → v ∈ (update_retention_policy st uid hours).2.users) ∧
    (∀ v ∈ st.users, v.id = uid →
      { v with retentionHours := hours, autoDeleteEnabled := true }
        ∈ (update_retention_policy st uid hours).2.users) := by
  obtain ⟨u, hfind⟩ := Option.isSome_iff_exists.mp hu
  have husers : (update_retention_policy st uid hours).2.users
      = st.users.map (fun v =>
          if v.id = uid then
            { v with retentionHours := hours, autoDeleteEnabled := true }
          else v) := by
    simp only [update_retention_policy, hfind]
  refine ⟨by simp only [update_retention_policy, hfind],
          by simp only [update_retention_policy, hfind],
          by simp only [update_retention_policy, hfind],
          by simp only [update_retention_policy, hfind],
          by simp only [update_retention_policy, hfind],
          by simp only [update_retention_policy, hfind],
          ?_, ?_, ?_⟩
  · rw [husers, List.length_map]
  · intro v hv hne
    have hmem := List.mem_map_of_mem (fun v =>
        if v.id = uid then
          { v with retentionHours := hours, autoDeleteEnabled := true }
        else v) hv
    simp only [if_neg hne] at hmem
    rw [husers]
    exact hmem
  · intro v hv he
    have hmem := List.mem_map_of_mem (fun v =>
        if v.id = uid then
          { v with retentionHours := hours, autoDeleteEnabled := true }
        else v) hv
    simp only [if_pos he] at hmem
    rw [husers]
    exact hmem

/-- Witness for the amended C2 at the sample store: setting user 1's
horizon to 500 persists 500 and enables auto-deletion, with the other
tables untouched. -/
theorem update_retention_policy_persists_witness :
    (sampleStore.users.find? (fun u => decide (u.id = 1))).isSome = true ∧
    (update_retention_policy sampleStore 1 500).1
      = some { user_id := 1, new_retention_hours := 500 } ∧
    (update_retention_policy sampleStore 1 500).2.sessions = sampleStore.sessions ∧
    { sampleUser1 with retentionHours := 500, autoDeleteEnabled := true }
      ∈ (update_retention_policy sampleStore 1 500).2.users := by
  have h := update_retention_policy_persists sampleStore 1 500 rfl
  exact ⟨rfl, h.1, h.2.2.1, h.2.2.2.2.2.2.2.2 sampleUser1 (by decide) rfl⟩

/-- C8 (code bug): every call of `create_audit_log` — in particular one
whose payload contains `alice@example.com` and the 10-digit phone number
`0123456789` — raises `NameError` on the name `json` instead of storing a
redacted payload: line 147 of security_service.py evaluates
`json.dumps(event_data)` first, and the module never imports `json`, so
the redaction and persistence the claim describes are never reached. -/
theorem create_audit_log_raises_name_error :
    create_audit_log 100 1 "login"
      [("email", "alice@example.com"), ("phone", "0123456789")] none none
      = Except.error (PyErr.nameError "json") ∧
    (∀ (now : Int) (uid : Nat) (et : String) (ed : List (String × String))
        (ip ua : Option String),
      create_audit_log now uid et ed ip ua = Except.error (PyErr.nameError "json")) :=
  ⟨rfl, fun _ _ _ _ _ _ => rfl⟩

/-- C9: `export_user_data` — a pure read, embedded as a function of the
store that returns it unchanged by construction — answers the not-found
result exactly when no user with the id exists; for a present user it
returns the nested document holding the profile row and the five entity
collections scoped to that user (resumes, sessions, and the transcript
segments, suggestions of those sessions' ids, and audit logs); and
exporting immediately after `delete_user_data` for that user answers the
not-found result. -/
theorem export_user_data_spec (st : Store) (uid : Nat) (vectorOk : Bool) :
    (export_user_data st uid = none ↔
      st.users.find? (fun u => decide (u.id = uid)) = none) ∧
    (∀ u, st.users.find? (fun u => decide (u.id = uid)) = some u →
      export_user_data st uid = some
        { user_id := uid, user_profile := u,
          resumes := st.resumes.filter (fun r => decide (r.user_id = uid)),
          sessions := st.sessions.filter (fun s => decide (s.user_id = uid)),
          transcripts := st.segments.filter (fun g =>
            (((st.sessions.filter (fun s => decide (s.user_id = uid))).map
                SessionRow.id).contains g.session_id)),
          suggestions := st.suggestions.filter (fun g =>
            (((st.sessions.filter (fun s => decide (s.user_id = uid))).map
                SessionRow.id).contains g.session_id)),
          audit_logs := st.auditLogs.filter (fun a => decide (a.user_id = uid)) }) ∧
    ((st.users.find? (fun u => decide (u.id = uid))).isSome = true →
      export_user_data (delete_user_data true vectorOk st uid).2 uid = none) := by
  refine ⟨?_, ?_, ?_⟩
  · constructor
    · intro he
      cases hf : st.users.find? (fun u => decide (u.id = uid)) with
      | none => rfl
      | some u =>
        rw [export_user_data] at he
        rw [hf] at he
        cases he
    · intro hf
      rw [export_user_data, hf]
  · intro u hf
    rw [export_user_data, hf]
  · intro h
    obtain ⟨u, hfind⟩ := Option.isSome_iff_exists.mp h
    have husers : (delete_user_data true vectorOk st uid).2.users
        = st.users.filter (fun v => !(decide (v.id = uid))) := by
      simp only [delete_user_data, hfind]
    have hnone : ((delete_user_data true vectorOk st uid).2.users).find?
        (fun v => decide (v.id = uid)) = none := by
      rw [husers]
      exact find?_filter_not_self _ _
    rw [export_user_data, hnone]

/-- Witness for C9 at the sample store: user 1 exports to a document whose
session list is exactly user 1's three sessions, and exporting right after
the erasure of user 1 answers the not-found result. -/
theorem export_user_data_spec_witness :
    (sampleStore.users.find? (fun u => decide (u.id = 1))).isSome = true ∧
    (export_user_data sampleStore 1).map ExportDoc.sessions
      = some [sessOldClosed1, sessOldOpen1, sessRecent1] ∧
    (export_user_data sampleStore 1).map ExportDoc.user_profile = some sampleUser1 ∧
    export_user_data (delete_user_data true true sampleStore 1).2 1 = none := by
  have h := export_user_data_spec sampleStore 1 true
  exact ⟨rfl, by decide, by decide, h.2.2 rfl⟩

/-- C10: the account-deletion endpoint `DELETE /users/me` performs only a
soft delete: it flips the authenticated user's `is_active` to False
(leaving every other field of the row and every other row intact — the
user row and all the user's resumes, sessions, segments, suggestions and
audit logs remain in the store) while telling the caller the account was
deleted. -/
theorem delete_my_account_soft_delete (st : Store) (uid : Nat)
    (hu : (st.users.find? (fun u => decide (u.id = uid))).isSome = true) :
    (delete_my_account st uid).1 = "Account deleted successfully" ∧
    (delete_my_account st uid).2.resumes = st.resumes ∧
    (delete_my_account st uid).2.sessions = st.sessions ∧
    (delete_my_account st uid).2.segments = st.segments ∧
    (delete_my_account st uid).2.suggestions = st.suggestions ∧
    (delete_my_account st uid).2.auditLogs = st.auditLogs ∧
    (delete_my_account st uid).2.users.length = st.users.length ∧
    (∀ v ∈ st.users, v.id ≠ uid → v ∈ (delete_my_account st uid).2.users) ∧
    (∀ v ∈ st.users, v.id = uid →
      { v with isActive := false } ∈ (delete_my_account st uid).2.users) := by
  obtain ⟨u, hfind⟩ := Option.isSome_iff_exists.mp hu
  have husers : (delete_my_account st uid).2.users
      = st.users.map (fun v => if v.id = uid then { v with isActive := false } else v) := by
    simp only [delete_my_account, update_user_is_active, hfind]
  refine ⟨rfl,
          by simp only [delete_my_account, update_user_is_active, hfind],
          by simp only [delete_my_account, update_user_is_active, hfind],
          by simp only [delete_my_account, update_user_is_active, hfind],
          by simp only [delete_my_account, update_user_is_active, hfind],
          by simp only [delete_my_account, update_user_is_active, hfind],
          ?_, ?_, ?_⟩
  · rw [husers, List.length_map]
  · intro v hv hne
    have hmem := List.mem_map_of_mem
        (fun v => if v.id = uid then { v with isActive := false } else v) hv
    simp only [if_neg hne] at hmem
    rw [husers]
    exact hmem
  · intro v hv he
    have hmem := List.mem_map_of_mem
        (fun v => if v.id = uid then { v with isActive := false } else v) hv
    simp only [if_pos he] at hmem
    rw [husers]
    exact hmem

/-- Witness for C10 at the sample store: deleting user 1's account reports
success, keeps every table (the sessions list shown here), and keeps user
1's row with only `is_active` flipped to False. -/
theorem delete_my_account_soft_delete_witness :
    (sampleStore.users.find? (fun u => decide (u.id = 1))).isSome = true ∧
    (delete_my_account sampleStore 1).1 = "Account deleted successfully" ∧
    (delete_my_account sampleStore 1).2.sessions = sampleStore.sessions ∧
    (delete_my_account sampleStore 1).2.auditLogs = sampleStore.auditLogs ∧
    { sampleUser1 with isActive := false } ∈ (delete_my_account sampleStore 1).2.users := by
  have h := delete_my_account_soft_delete sampleStore 1 rfl
  exact ⟨rfl, h.1, h.2.2.1, h.2.2.2.2.2.1, h.2.2.2.2.2.2.2.2 sampleUser1 (by decide) rfl⟩
